import Mathlib

/-!
Shallow embedding of the StegSports-CFP dashboard report builder
(`js/dashboard.js`): the click/conversion aggregation (`loadClicks`),
the derived-metric helper (`computeRpc`), the CSV serializer
(`escapeCsvField`, `buildCsvFromExport`) and the window-selection
sanitizer (`getSelectedDays`).  JS objects are modelled as association
lists, JS numbers as rationals, nullable fields as `Option`, and the two
network fetches as `Except` inputs to the pure pipeline.  DOM rendering
is not modelled; the observable outputs are the held export snapshot
(`AFFILIATE_EXPORT` in the source), the outcome of the load, and whether
the conversions request was issued.
-/

namespace StegCFP

/-- A JS value flowing into the CSV serializer: null/undefined, a string,
or a (finite) number.  Numbers are modelled as rationals. -/
inductive JsVal where
  | null : JsVal
  | str (s : String) : JsVal
  | num (q : ℚ) : JsVal
deriving DecidableEq

/-- JS `String()` applied to a number, modelled for decimal fractions with
at most two decimal places — the only numeric shapes the dashboard
produces (integer click/conversion counts and unix-second timestamps,
two-decimal currency amounts, and `Number` of a `toFixed(2)` string).
A rational outside that range prints as a plain fraction; no value of the
embedded program reaches that branch. -/
def ratToJsString (q : ℚ) : String :=
  let sign := if q < 0 then "-" else ""
  let a := q.num.natAbs
  let d := q.den
  if d = 1 then sign ++ toString a
  else if 10 % d = 0 then
    sign ++ toString (a / d) ++ "." ++ toString (a * 10 / d % 10)
  else if 100 % d = 0 then
    let f := a * 100 / d % 100
    sign ++ toString (a / d) ++ "." ++
      (if f < 10 then "0" ++ toString f else toString f)
  else sign ++ toString a ++ "/" ++ toString d

/-- JS `String()` on a `JsVal` (`String(null)` is the literal "null", but
`escapeCsvField` short-circuits null before ever stringifying it). -/
def jsValToString : JsVal → String
  | .null => "null"
  | .str s => s
  | .num q => ratToJsString q

/-- The test `/[",\n]/.test(s)` from `escapeCsvField`: does the string
contain a double quote, a comma, or a newline? -/
def hasCsvSpecial (s : String) : Bool :=
  s.data.any fun c => c == '"' || c == ',' || c == '\n'

/-- The global replacement `s.replace(/"/g, '""')`: every double quote is
doubled, all other characters pass through. -/
def doubleQuotesAux : List Char → List Char
  | [] => []
  | c :: cs =>
      if c = '"' then '"' :: '"' :: doubleQuotesAux cs
      else c :: doubleQuotesAux cs

/-- String-level wrapper for `doubleQuotesAux`. -/
def doubleQuotes (s : String) : String := ⟨doubleQuotesAux s.data⟩

/-- `escapeCsvField` from dashboard.js: null/undefined serialize as the
empty string; a field whose textual form matches `/[",\n]/` is wrapped in
double quotes with embedded quotes doubled; any other field passes
through unchanged. -/
def escapeCsvField (v : JsVal) : String :=
  match v with
  | .null => ""
  | v =>
      let s := jsValToString v
      if hasCsvSpecial s then "\"" ++ doubleQuotes s ++ "\"" else s

/-- One entry of the static `CAMPAIGN_META` table. -/
structure CampaignMeta where
  gameLabel : String
  eventName : String
  groupSize : Nat
  maxRows : Nat
deriving DecidableEq

/-- The static campaign-metadata lookup table from dashboard.js. -/
def CAMPAIGN_META : List (String × CampaignMeta) :=
  [("CFP-ROSE-2025",
    ⟨"Rose Bowl Semifinal",
     "Rose Bowl CFP Semifinal · Team 1 vs Team 4", 4, 2⟩),
   ("CFP-SUGAR-2025",
    ⟨"Sugar Bowl Semifinal",
     "Sugar Bowl CFP Semifinal · Team 2 vs Team 3", 4, 2⟩),
   ("CFP-TITLE-2025",
    ⟨"CFP National Championship",
     "College Football Playoff National Championship", 4, 2⟩)]

/-- The `window` object of a click summary (unix-second timestamps). -/
structure ClickWindow where
  start_ts : Option ℚ
  end_ts : Option ℚ
deriving DecidableEq

/-- The parsed response of `/v1/tickets/clicks/summary`: the fields the
dashboard reads.  The JS objects `by_provider` and `by_campaign` are
modelled as association lists (JS object keys are unique). -/
structure ClickSummary where
  total_clicks : Nat
  window : ClickWindow
  by_provider : List (String × Nat)
  by_campaign : List (String × Nat)
deriving DecidableEq

/-- One entry of the `campaigns` list of a conversion summary. -/
structure ConvEntry where
  campaign_id : String
  conversions : Option Nat
  revenue : Option ℚ
  currency : Option String
deriving DecidableEq

/-- The `window` object of a conversion summary (date strings). -/
structure ConvWindow where
  start_date : Option String
  end_date : Option String
deriving DecidableEq

/-- The parsed response of `/v1/partnerize/conversions/summary`. -/
structure ConversionSummary where
  campaigns : List ConvEntry
  window : ConvWindow
deriving DecidableEq

/-- `val.toFixed(2)` re-parsed by `Number(...)`: the value rounded to two
decimal places, half away from zero. -/
def jsToFixed2 (q : ℚ) : ℚ :=
  if 0 ≤ q then ((⌊q * 100 + 1 / 2⌋ : ℤ) : ℚ) / 100
  else -(((⌊-q * 100 + 1 / 2⌋ : ℤ) : ℚ) / 100)

/-- `computeRpc` from dashboard.js composed with the export-side
`Number(rpc)`: the source returns the sentinel string "—" (modelled
`none`) when `clicks` is falsy/≤ 0 or `revenue` is null, and otherwise
`(revenue / clicks).toFixed(2)`; the export snapshot stores `Number` of
that string, i.e. the quotient rounded to two decimals.  The source's
`isFinite` guard is vacuous over rationals with `clicks > 0`. -/
def computeRpc (revenue : Option ℚ) (clicks : Nat) : Option ℚ :=
  match revenue with
  | none => none
  | some r => if clicks = 0 then none else some (jsToFixed2 (r / clicks))

/-- One element of the export snapshot's `byCampaign` array (the object
pushed onto `exportRows` in `loadClicks`). -/
structure ReportRow where
  campaign_id : String
  game_label : Option String
  clicks : Nat
  conversions : Nat
  revenue : Option ℚ
  currency : String
  revenue_per_click : Option ℚ
deriving DecidableEq

/-- The `meta` object of a populated `AFFILIATE_EXPORT` snapshot. -/
structure ExportMeta where
  total_clicks : Nat
  click_window : ClickWindow
  conv_window : ConvWindow
  conv_window_days : ℚ
  generated_at : String
deriving DecidableEq

/-- The `AFFILIATE_EXPORT` snapshot: the rows held for CSV export plus
metadata.  The source resets it to `{ byCampaign: [], meta: {} }`; the
empty `meta` object is modelled as `none`. -/
structure ExportState where
  byCampaign : List ReportRow
  meta : Option ExportMeta
deriving DecidableEq

/-- The observable outcome of one `loadClicks` invocation. -/
inductive LoadOutcome where
  | fatalError (e : String)
  | noCampaigns
  | convError (e : String)
  | success
deriving DecidableEq

/-- Everything observable after one `loadClicks` invocation: the outcome,
the held `AFFILIATE_EXPORT` snapshot, whether the conversions request was
issued, and the campaign ids it was issued for. -/
structure LoadResult where
  outcome : LoadOutcome
  affiliateExport : ExportState
  convRequested : Bool
  requestedIds : List String
deriving DecidableEq

/-- Lexicographic comparison of char lists by code point, the order JS
`Array.prototype.sort()` applies to strings (UTF-16 code units; all
campaign ids are ASCII, where code units and code points agree). -/
def charListLe : List Char → List Char → Bool
  | [], _ => true
  | _ :: _, [] => false
  | a :: as, b :: bs =>
      if a.toNat < b.toNat then true
      else if b.toNat < a.toNat then false
      else charListLe as bs

/-- String-level wrapper for `charListLe`. -/
def strLeB (a b : String) : Bool := charListLe a.data b.data

/-- Insert a string into a list, before the first element it compares
`strLeB`-less-or-equal to. -/
def insertSorted (a : String) : List String → List String
  | [] => [a]
  | b :: l => if strLeB a b then a :: b :: l else b :: insertSorted a l

/-- JS `Array.prototype.sort()` with the default comparator on an array
of strings, modelled as insertion sort under `strLeB` (the keys being
sorted are unique JS object keys, so any correct sort agrees). -/
def sortStrings (l : List String) : List String := l.foldr insertSorted []

/-- The `convMap` lookup: `convMap` is built by assigning
`convMap[String(c.campaign_id)] = c` over the `campaigns` list, so a
later entry with the same id overwrites an earlier one — lookup finds the
last matching entry. -/
def convLookup (convData : ConversionSummary) (cid : String) : Option ConvEntry :=
  convData.campaigns.reverse.find? fun c => c.campaign_id == cid

/-- The row construction inside the `campaignsSorted.forEach` of
`loadClicks`: `clicks = byCampaign[cid] || 0`, `stats = convMap[cid] || {}`,
`conv = stats.conversions ?? 0`, `rev = stats.revenue ?? null`,
`currency = stats.currency || "USD"`, `rpc = computeRpc(rev, clicks)`,
`gameLabel = (CAMPAIGN_META[cid] || {}).gameLabel || ""`, and the export
row stores `game_label: gameLabel || null`. -/
def buildRow (byCampaign : List (String × Nat)) (convData : ConversionSummary)
    (cid : String) : ReportRow :=
  let clicks := (byCampaign.lookup cid).getD 0
  let stats := convLookup convData cid
  let conv := (stats.bind (·.conversions)).getD 0
  let rev := stats.bind (·.revenue)
  let currency :=
    match stats.bind (·.currency) with
    | some c => if c = "" then "USD" else c
    | none => "USD"
  let rpc := computeRpc rev clicks
  let metaInfo := CAMPAIGN_META.lookup cid
  let gameLabel := (metaInfo.map (·.gameLabel)).getD ""
  { campaign_id := cid
    game_label := if gameLabel = "" then none else some gameLabel
    clicks := clicks
    conversions := conv
    revenue := rev
    currency := currency
    revenue_per_click := rpc }

/-- Pure embedding of `loadClicks` from dashboard.js.  Inputs are the
selected window day-count, the results of the two fetches (the second is
consulted only when the source would issue the request), and the
`generated_at` timestamp.  Control flow follows the source: a failed
click fetch hits the outer catch and resets the snapshot; an empty
non-"none" campaign-id list returns early with the snapshot still in its
reset state; a failed conversions fetch hits the inner catch and also
returns with the snapshot still in its reset state; otherwise the rows
are built over all `by_campaign` keys sorted lexicographically by
`sortStrings` (JS default `Array.prototype.sort`). -/
def loadClicks (days : ℚ) (clickRes : Except String ClickSummary)
    (convRes : Except String ConversionSummary) (generatedAt : String) :
    LoadResult :=
  match clickRes with
  | .error e => ⟨.fatalError e, ⟨[], none⟩, false, []⟩
  | .ok clickData =>
      let byCampaign := clickData.by_campaign
      let campaignIds := (byCampaign.map Prod.fst).filter fun cid => cid != "none"
      if campaignIds.isEmpty then ⟨.noCampaigns, ⟨[], none⟩, false, []⟩
      else
        match convRes with
        | .error e => ⟨.convError e, ⟨[], none⟩, true, campaignIds⟩
        | .ok convData =>
            let campaignsSorted := sortStrings (byCampaign.map Prod.fst)
            let exportRows := campaignsSorted.map (buildRow byCampaign convData)
            ⟨.success,
             ⟨exportRows,
              some ⟨clickData.total_clicks, clickData.window, convData.window,
                    days, generatedAt⟩⟩,
             true, campaignIds⟩

/-- The fixed CSV column order (the `header` array in
`buildCsvFromExport`). -/
def csvHeaderCols : List String :=
  ["campaign_id", "game_label", "clicks", "conversions", "revenue",
   "currency", "revenue_per_click", "generated_at", "click_window_start_ts",
   "click_window_end_ts", "conv_window_days", "conv_window_start_date",
   "conv_window_end_date"]

/-- The JS expression `x || ""` on an optional numeric field: undefined
and the (falsy) number 0 both give the empty string. -/
def jsNumOrEmptyStr (v : Option ℚ) : JsVal :=
  match v with
  | none => .str ""
  | some q => if q = 0 then .str "" else .num q

/-- A nullable numeric row field as the `JsVal` passed to
`escapeCsvField`. -/
def optNumVal (v : Option ℚ) : JsVal :=
  match v with
  | none => .null
  | some q => .num q

/-- A nullable string row field as the `JsVal` passed to
`escapeCsvField`. -/
def optStrVal (v : Option String) : JsVal :=
  match v with
  | none => .null
  | some s => .str s

/-- One data line of the CSV: the thirteen fields of a row, in the fixed
column order, each passed through `escapeCsvField` and joined with
commas.  `meta = AFFILIATE_EXPORT.meta || {}`, `clickWindow =
meta.click_window || {}`, `convWindow = meta.conv_window || {}`, and the
window/meta fields use the source's `x || ""` defaults. -/
def csvLine (meta : Option ExportMeta) (r : ReportRow) : String :=
  let clickWindow := (meta.map (·.click_window)).getD ⟨none, none⟩
  let convWindow := (meta.map (·.conv_window)).getD ⟨none, none⟩
  String.intercalate ","
    [escapeCsvField (.str r.campaign_id),
     escapeCsvField (optStrVal r.game_label),
     escapeCsvField (.num (r.clicks : ℚ)),
     escapeCsvField (.num (r.conversions : ℚ)),
     escapeCsvField (optNumVal r.revenue),
     escapeCsvField (.str r.currency),
     escapeCsvField (optNumVal r.revenue_per_click),
     escapeCsvField (.str ((meta.map (·.generated_at)).getD "")),
     escapeCsvField (jsNumOrEmptyStr clickWindow.start_ts),
     escapeCsvField (jsNumOrEmptyStr clickWindow.end_ts),
     escapeCsvField (jsNumOrEmptyStr (meta.map (·.conv_window_days))),
     escapeCsvField (.str (convWindow.start_date.getD "")),
     escapeCsvField (.str (convWindow.end_date.getD ""))]

/-- `buildCsvFromExport` from dashboard.js: `null` (modelled `none`) when
the held row list is empty, otherwise the header line followed by one
line per row, joined with newlines. -/
def buildCsvFromExport (ex : ExportState) : Option String :=
  if ex.byCampaign.isEmpty then none
  else
    some (String.intercalate "\n"
      (String.intercalate "," csvHeaderCols :: ex.byCampaign.map (csvLine ex.meta)))

/-- The state of the `window-select` input as seen through
`document.getElementById` and `Number(sel.value || 30)`: the element may
be absent; its value may be the empty string (so `Number(30) = 30`); its
`Number()` may be NaN (non-numeric text) or ±Infinity; or it parses to a
finite number `q`. -/
inductive WindowSelectState where
  | absent
  | emptyValue
  | nanValue
  | infiniteValue
  | numericValue (q : ℚ)
deriving DecidableEq

/-- `getSelectedDays` from dashboard.js: 30 when the element is absent,
when the parsed value is not a finite number, or when it is ≤ 0;
otherwise the parsed value. -/
def getSelectedDays : WindowSelectState → ℚ
  | .absent => 30
  | .emptyValue => 30
  | .nanValue => 30
  | .infiniteValue => 30
  | .numericValue q => if q ≤ 0 then 30 else q

/-! Concrete fixtures used by the witnesses and counterexamples below. -/

/-- A conversion summary with no campaigns and no window. -/
def cvEmpty : ConversionSummary := ⟨[], ⟨none, none⟩⟩

/-- Click summary: one campaign with 7 clicks. -/
def cdC1 : ClickSummary := ⟨7, ⟨none, none⟩, [("seatgeek", 7)], [("CFP-ROSE-2025", 7)]⟩

/-- Click summary: campaign "A" with 5 clicks and campaign "B" recorded
with 0 clicks. -/
def cdC2 : ClickSummary := ⟨5, ⟨none, none⟩, [], [("A", 5), ("B", 0)]⟩

/-- Click summary: one campaign with 3 clicks. -/
def cdC2w : ClickSummary := ⟨3, ⟨none, none⟩, [], [("CFP-ROSE-2025", 3)]⟩

/-- Click summary: a non-"none" campaign present with zero clicks. -/
def cdC3 : ClickSummary := ⟨0, ⟨none, none⟩, [], [("A", 0)]⟩

/-- Click summary: only the sentinel "none" key, with 5 clicks. -/
def cdC3b : ClickSummary := ⟨5, ⟨none, none⟩, [], [("none", 5)]⟩

/-- Click summary: one campaign with 40 clicks. -/
def cdC4 : ClickSummary := ⟨40, ⟨none, none⟩, [], [("CFP-ROSE-2025", 40)]⟩

/-- Conversion summary: 4 conversions and revenue 100 for the campaign of
`cdC4`. -/
def cvC4 : ConversionSummary :=
  ⟨[⟨"CFP-ROSE-2025", some 4, some 100, some "USD"⟩], ⟨none, none⟩⟩

/-- The report row `loadClicks` builds from `cdC4` and `cvC4`
(revenue-per-click 100/40 = 2.50). -/
def rowC4 : ReportRow :=
  ⟨"CFP-ROSE-2025", some "Rose Bowl Semifinal", 40, 4, some 100, "USD", some (5/2)⟩

/-- Click summary with keys arriving unsorted, one of them without
campaign metadata. -/
def cdC7 : ClickSummary :=
  ⟨5, ⟨none, none⟩, [], [("CFP-SUGAR-2025", 2), ("AAA", 3)]⟩

/-- The report row `loadClicks` builds for campaign "AAA" of `cdC7` when
the conversion summary has no matching entry: conversions 0, revenue
absent, label absent. -/
def rowC7 : ReportRow := ⟨"AAA", none, 3, 0, none, "USD", none⟩

/-- A snapshot row as literally given in the specification's CSV example:
no `game_label` and no `revenue_per_click` value. -/
def rowC8lit : ReportRow := ⟨"CFP-ROSE-2025", none, 10, 2, some 50, "USD", none⟩

/-- Snapshot holding just `rowC8lit`, with empty metadata. -/
def exC8lit : ExportState := ⟨[rowC8lit], none⟩

/-- The same row with the `revenue_per_click` value 5 that `loadClicks`
computes for clicks = 10, revenue = 50. -/
def rowC8rpc : ReportRow := ⟨"CFP-ROSE-2025", none, 10, 2, some 50, "USD", some 5⟩

/-- Snapshot holding just `rowC8rpc`, with empty metadata. -/
def exC8rpc : ExportState := ⟨[rowC8rpc], none⟩

/-- The CSV header line, as a literal. -/
def csvHeaderLit : String :=
  "campaign_id,game_label,clicks,conversions,revenue,currency,revenue_per_click,generated_at,click_window_start_ts,click_window_end_ts,conv_window_days,conv_window_start_date,conv_window_end_date"

/-- The data line serialized from `rowC8lit` under empty metadata. -/
def dataLineC8lit : String := "CFP-ROSE-2025,,10,2,50,USD,,,,,,,"

/-- The data line serialized from `rowC8rpc` under empty metadata. -/
def dataLineC8rpc : String := "CFP-ROSE-2025,,10,2,50,USD,5,,,,,,"

/-! Helper lemmas about the string sort used by `loadClicks`. -/

theorem charListLe_total : ∀ as bs : List Char,
    charListLe as bs = true ∨ charListLe bs as = true := by
  intro as
  induction as with
  | nil => intro bs; left; rfl
  | cons a as ih =>
    intro bs
    cases bs with
    | nil => right; rfl
    | cons b bs =>
      rcases Nat.lt_trichotomy a.toNat b.toNat with h | h | h
      · left; simp [charListLe, h]
      · have h1 : ¬ a.toNat < b.toNat := by omega
        have h2 : ¬ b.toNat < a.toNat := by omega
        rcases ih bs with hc | hc
        · left; simp [charListLe, h1, h2, hc]
        · right; simp [charListLe, h1, h2, hc]
      · right; simp [charListLe, h]

theorem charListLe_trans : ∀ as bs cs : List Char,
    charListLe as bs = true → charListLe bs cs = true →
    charListLe as cs = true := by
  intro as
  induction as with
  | nil => intro bs cs _ _; rfl
  | cons a as ih =>
    intro bs cs hab hbc
    cases bs with
    | nil => simp [charListLe] at hab
    | cons b bs =>
      cases cs with
      | nil => simp [charListLe] at hbc
      | cons c cs =>
        rcases Nat.lt_trichotomy a.toNat b.toNat with hab1 | hab1 | hab1
        · rcases Nat.lt_trichotomy b.toNat c.toNat with hbc1 | hbc1 | hbc1
          · have h : a.toNat < c.toNat := by omega
            simp [charListLe, h]
          · have h : a.toNat < c.toNat := by omega
            simp [charListLe, h]
          · exfalso
            simp [charListLe, show ¬ b.toNat < c.toNat by omega, hbc1] at hbc
        · rcases Nat.lt_trichotomy b.toNat c.toNat with hbc1 | hbc1 | hbc1
          · have h : a.toNat < c.toNat := by omega
            simp [charListLe, h]
          · simp only [charListLe, if_neg (show ¬ a.toNat < b.toNat by omega),
              if_neg (show ¬ b.toNat < a.toNat by omega)] at hab
            simp only [charListLe, if_neg (show ¬ b.toNat < c.toNat by omega),
              if_neg (show ¬ c.toNat < b.toNat by omega)] at hbc
            simp only [charListLe, if_neg (show ¬ a.toNat < c.toNat by omega),
              if_neg (show ¬ c.toNat < a.toNat by omega)]
            exact ih bs cs hab hbc
          · exfalso
            simp [charListLe, show ¬ b.toNat < c.toNat by omega, hbc1] at hbc
        · exfalso
          simp [charListLe, show ¬ a.toNat < b.toNat by omega, hab1] at hab

theorem strLeB_total (a b : String) : strLeB a b = true ∨ strLeB b a = true :=
  charListLe_total a.data b.data

theorem strLeB_trans {a b c : String} (h1 : strLeB a b = true)
    (h2 : strLeB b c = true) : strLeB a c = true :=
  charListLe_trans a.data b.data c.data h1 h2

theorem perm_insertSorted (a : String) :
    ∀ l : List String, List.Perm (insertSorted a l) (a :: l) := by
  intro l
  induction l with
  | nil => exact List.Perm.refl _
  | cons b l ih =>
    simp only [insertSorted]
    split
    · exact List.Perm.refl _
    · exact (ih.cons b).trans (List.Perm.swap a b l)

theorem perm_sortStrings (l : List String) : List.Perm (sortStrings l) l := by
  induction l with
  | nil => exact List.Perm.refl _
  | cons a l ih =>
    exact (perm_insertSorted a (sortStrings l)).trans (ih.cons a)

theorem pairwise_insertSorted (a : String) :
    ∀ l : List String, l.Pairwise (fun x y => strLeB x y = true) →
    (insertSorted a l).Pairwise (fun x y => strLeB x y = true) := by
  intro l
  induction l with
  | nil => intro _; simp [insertSorted]
  | cons b l ih =>
    intro h
    rcases List.pairwise_cons.mp h with ⟨hb, hl⟩
    simp only [insertSorted]
    split
    · rename_i hab
      refine List.pairwise_cons.mpr ⟨?_, h⟩
      intro x hx
      rcases hx with _ | hx
      · exact hab
      · exact strLeB_trans hab (hb x (by assumption))
    · rename_i hab
      have hba : strLeB b a = true := by
        rcases strLeB_total a b with h1 | h1
        · exact absurd h1 hab
        · exact h1
      refine List.pairwise_cons.mpr ⟨?_, ih hl⟩
      intro x hx
      rcases List.mem_cons.mp ((perm_insertSorted a l).mem_iff.mp hx) with hx1 | hx1
      · subst hx1; exact hba
      · exact hb x (by assumption)

theorem sorted_sortStrings (l : List String) :
    (sortStrings l).Pairwise (fun x y => strLeB x y = true) := by
  induction l with
  | nil => simp [sortStrings]
  | cons a l ih => exact pairwise_insertSorted a (sortStrings l) ih

theorem charListLe_iff_not_lex : ∀ as bs : List Char,
    charListLe as bs = true ↔ ¬ List.Lex (· < ·) bs as := by
  intro as
  induction as with
  | nil =>
    intro bs
    simp only [charListLe, List.Lex.not_nil_right, not_false_iff, iff_true]
  | cons a as ih =>
    intro bs
    cases bs with
    | nil =>
      constructor
      · intro h; simp [charListLe] at h
      · intro h; exact absurd List.Lex.nil h
    | cons b bs =>
      rcases Nat.lt_trichotomy a.toNat b.toNat with h | h | h
      · have hne : b ≠ a := by
          intro he; subst he; omega
        constructor
        · intro _ hlex
          cases hlex with
          | cons h2 => exact hne rfl
          | rel h2 =>
            have hba : b.toNat < a.toNat := h2
            omega
        · intro _; simp [charListLe, h]
      · have heq : a = b := Char.ext (UInt32.ext_iff.mpr h)
        subst heq
        constructor
        · intro hc hlex
          have hc' : charListLe as bs = true := by
            simpa [charListLe] using hc
          cases hlex with
          | cons h2 => exact (ih bs).mp hc' h2
          | rel h2 =>
            have hlt : a.toNat < a.toNat := h2
            omega
        · intro hnlex
          simp only [charListLe, if_neg (Nat.lt_irrefl _)]
          exact (ih bs).mpr fun h2 => hnlex (List.Lex.cons h2)
      · constructor
        · intro hc
          simp [charListLe, show ¬ a.toNat < b.toNat by omega, h] at hc
        · intro hnlex
          exact absurd (List.Lex.rel (show b < a from h)) hnlex

/-- The sort comparator agrees with the linear order on strings:
`sortStrings` sorts lexicographically. -/
theorem strLeB_iff_le (a b : String) : strLeB a b = true ↔ a ≤ b := by
  rw [String.le_iff_toList_le, ← not_lt]
  exact charListLe_iff_not_lex a.data b.data


theorem loadClicks_ok_ok (days : ℚ) (cd : ClickSummary) (cv : ConversionSummary)
    (gen : String)
    (hk : ((cd.by_campaign.map Prod.fst).filter (fun cid => cid != "none")).isEmpty
      = false) :
    loadClicks days (.ok cd) (.ok cv) gen =
      ⟨.success,
       ⟨(sortStrings (cd.by_campaign.map Prod.fst)).map (buildRow cd.by_campaign cv),
        some ⟨cd.total_clicks, cd.window, cv.window, days, gen⟩⟩,
       true, (cd.by_campaign.map Prod.fst).filter (fun cid => cid != "none")⟩ := by
  simp [loadClicks, hk]

theorem buildRow_campaign_id (bc : List (String × Nat)) (cv : ConversionSummary)
    (cid : String) : (buildRow bc cv cid).campaign_id = cid := rfl

theorem buildRow_rpc_eq (bc : List (String × Nat)) (cv : ConversionSummary)
    (cid : String) :
    (buildRow bc cv cid).revenue_per_click =
      computeRpc (buildRow bc cv cid).revenue (buildRow bc cv cid).clicks := rfl

theorem rows_map_campaign_id (cd : ClickSummary) (cv : ConversionSummary) :
    ((sortStrings (cd.by_campaign.map Prod.fst)).map
        (buildRow cd.by_campaign cv)).map (fun r => r.campaign_id) =
      sortStrings (cd.by_campaign.map Prod.fst) := by
  rw [List.map_map]
  exact List.map_id'' (fun _ => rfl) _

theorem computeRpc_isSome (rev : Option ℚ) (clicks : Nat) :
    (computeRpc rev clicks).isSome = true ↔ 0 < clicks ∧ rev.isSome = true := by
  cases rev with
  | none => simp [computeRpc]
  | some r =>
    by_cases h : clicks = 0
    · subst h; simp [computeRpc]
    · simp [computeRpc, h, Nat.pos_of_ne_zero h]

theorem computeRpc_some (r : ℚ) (clicks : Nat) (h : clicks ≠ 0) :
    computeRpc (some r) clicks = some (jsToFixed2 (r / (clicks : ℚ))) := by
  simp [computeRpc, h]

theorem computeRpc_40_100 : computeRpc (some 100) 40 = some (5/2) := by
  rw [computeRpc_some 100 40 (by decide)]
  have hfl : ⌊((100 : ℚ) / ((40 : Nat) : ℚ) * 100 + 1/2)⌋ = (250 : ℤ) := by
    rw [show ((100 : ℚ) / ((40 : Nat) : ℚ) * 100 + 1/2) = ((501 : ℕ) : ℚ)/((2 : ℕ) : ℚ) by
      push_cast; norm_num]
    rw [Rat.floor_natCast_div_natCast]
    norm_num
  rw [jsToFixed2, if_pos (by positivity), hfl]
  norm_num

/-- C9: a failed click request aborts the whole load with the raw error
text carried in the outcome, resets the held snapshot to the empty state
(no retry, no fallback data, conversions never requested), and a
subsequent `buildCsvFromExport` returns null. -/
theorem c9_fatal_click_failure (days : ℚ) (e : String)
    (convRes : Except String ConversionSummary) (gen : String) :
    loadClicks days (.error e) convRes gen = ⟨.fatalError e, ⟨[], none⟩, false, []⟩
    ∧ buildCsvFromExport (loadClicks days (.error e) convRes gen).affiliateExport
        = none :=
  ⟨rfl, rfl⟩

/-- C10: for every state of the window-selection input, the sanitized
conversion-window day-count is strictly positive (a rational, hence
finite), with 30 used as the default in every degenerate case: element
absent, empty value, NaN, ±Infinity, zero, negative. -/
theorem c10_selected_days_positive (s : WindowSelectState) :
    0 < getSelectedDays s
    ∧ getSelectedDays .absent = 30
    ∧ getSelectedDays .emptyValue = 30
    ∧ getSelectedDays .nanValue = 30
    ∧ getSelectedDays .infiniteValue = 30
    ∧ getSelectedDays (.numericValue 0) = 30
    ∧ getSelectedDays (.numericValue (-5)) = 30 := by
  refine ⟨?_, rfl, rfl, rfl, rfl, by norm_num [getSelectedDays],
    by norm_num [getSelectedDays]⟩
  cases s with
  | numericValue q =>
    simp only [getSelectedDays]
    split
    · norm_num
    · rename_i hq; exact lt_of_not_le hq
  | absent => norm_num [getSelectedDays]
  | emptyValue => norm_num [getSelectedDays]
  | nanValue => norm_num [getSelectedDays]
  | infiniteValue => norm_num [getSelectedDays]

/-- C6: `buildCsvFromExport` returns the null sentinel exactly on an
empty row set — never a header-only string — and a non-null text for
every snapshot with at least one row. -/
theorem c6_exportCsv_none_iff (ex : ExportState) :
    (ex.byCampaign = [] → buildCsvFromExport ex = none)
    ∧ (ex.byCampaign ≠ [] → buildCsvFromExport ex ≠ none) := by
  constructor
  · intro h; simp [buildCsvFromExport, h]
  · intro h; simp [buildCsvFromExport, h]

theorem c6_witness :
    buildCsvFromExport (⟨[], none⟩ : ExportState) = none
    ∧ buildCsvFromExport exC8lit ≠ none :=
  ⟨(c6_exportCsv_none_iff ⟨[], none⟩).1 rfl,
   (c6_exportCsv_none_iff exC8lit).2 (by decide)⟩

/-- C5: a CSV field is wrapped in double quotes with embedded quotes
doubled exactly when its textual form contains a comma, a double quote or
a newline; absent (null/undefined) values serialize as the empty string,
never the literal "null" or a dash; the spec's example value serializes
as stated. -/
theorem c5_escape_quoting (s : String) :
    (hasCsvSpecial s = true →
      escapeCsvField (.str s) = "\"" ++ doubleQuotes s ++ "\"")
    ∧ (hasCsvSpecial s = false → escapeCsvField (.str s) = s)
    ∧ escapeCsvField .null = ""
    ∧ escapeCsvField (.str "Tickets, \"Rose Bowl\"") = "\"Tickets, \"\"Rose Bowl\"\"\"" := by
  refine ⟨?_, ?_, rfl, by decide⟩
  · intro h; simp [escapeCsvField, jsValToString, h]
  · intro h; simp [escapeCsvField, jsValToString, h]

theorem c5_witness :
    hasCsvSpecial "a,b" = true
    ∧ escapeCsvField (.str "a,b") = "\"a,b\""
    ∧ hasCsvSpecial "ab" = false
    ∧ escapeCsvField (.str "ab") = "ab" := by
  refine ⟨by decide, ?_, by decide, ?_⟩
  · have h := (c5_escape_quoting "a,b").1 (by decide)
    simpa using h
  · exact (c5_escape_quoting "ab").2.1 (by decide)

/-- C1: when the conversions request fails after a successful click
request, the code leaves the held export snapshot in its reset empty
state — no clicks-only rows and no flag in the held data — so a
subsequent `buildCsvFromExport` returns null; the degraded clicks-only
snapshot promised by the spec (and by the code's own on-screen message
"Conversions API error — CSV will include clicks only.") is never
built. -/
theorem c1_conv_failure_empty_export :
    (loadClicks 30 (.ok cdC1) (.error "HTTP 500: upstream failure") "t").outcome
        = .convError "HTTP 500: upstream failure"
    ∧ (loadClicks 30 (.ok cdC1) (.error "HTTP 500: upstream failure") "t").affiliateExport
        = ⟨[], none⟩
    ∧ buildCsvFromExport
        (loadClicks 30 (.ok cdC1) (.error "HTTP 500: upstream failure") "t").affiliateExport
        = none :=
  ⟨rfl, rfl, rfl⟩

/-- C3 (amended): the early "no campaigns" return happens exactly when no
key other than "none" is present in `by_campaign` — regardless of click
counts; the conversions request is then never issued, the load is not a
failure, and the held snapshot keeps empty rows and empty metadata (the
reported total clicks is displayed but not stored in the snapshot). -/
theorem c3_no_noncampaign_keys (days : ℚ) (cd : ClickSummary)
    (convRes : Except String ConversionSummary) (gen : String)
    (hk : ((cd.by_campaign.map Prod.fst).filter (fun cid => cid != "none")).isEmpty
      = true) :
    loadClicks days (.ok cd) convRes gen = ⟨.noCampaigns, ⟨[], none⟩, false, []⟩ := by
  simp [loadClicks, hk]

theorem c3_witness :
    ((cdC3b.by_campaign.map Prod.fst).filter (fun cid => cid != "none")).isEmpty = true
    ∧ loadClicks 30 (.ok cdC3b) (.error "conversions API down") "t"
        = ⟨.noCampaigns, ⟨[], none⟩, false, []⟩ :=
  ⟨by decide, c3_no_noncampaign_keys 30 cdC3b (.error "conversions API down") "t" (by decide)⟩

/-- C3 (counterexample): with `by_campaign = [("A", 0)]` no campaign id
other than "none" has nonzero clicks, yet the conversions request is
issued and a (zero-click) row is built; and on the true early-return path
(`by_campaign = [("none", 5)]`, total 5) the snapshot metadata is empty,
so the reported total clicks is not in the returned snapshot. -/
theorem c3_counterexample :
    cdC3.by_campaign = [("A", 0)]
    ∧ (loadClicks 30 (.ok cdC3) (.ok cvEmpty) "t").convRequested = true
    ∧ ((loadClicks 30 (.ok cdC3) (.ok cvEmpty) "t").affiliateExport.byCampaign.map
        (fun r => r.campaign_id)) = ["A"]
    ∧ cdC3b.total_clicks = 5
    ∧ (loadClicks 30 (.ok cdC3b) (.ok cvEmpty) "t").outcome = .noCampaigns
    ∧ (loadClicks 30 (.ok cdC3b) (.ok cvEmpty) "t").affiliateExport.meta = none := by
  refine ⟨rfl, by decide, by decide, rfl, by decide, by decide⟩

/-- C2 (counterexample): `by_campaign` recording campaign "B" with zero
clicks still yields a ReportRow for "B" with clicks 0 (rows are built
over all keys, not only those with positive counts). -/
theorem c2_counterexample :
    cdC2.by_campaign = [("A", 5), ("B", 0)]
    ∧ ((loadClicks 30 (.ok cdC2) (.ok cvEmpty) "t").affiliateExport.byCampaign.map
        (fun r => (r.campaign_id, r.clicks))) = [("A", 5), ("B", 0)] :=
  ⟨rfl, by decide⟩

/-- C2 (amended): for a click summary with unique keys, every campaign id
present in `by_campaign` — including zero-click ids and the sentinel
"none" — yields exactly one ReportRow, and ids absent from `by_campaign`
never appear (on the path where the conversions request is issued and
succeeds). -/
theorem c2_rows_count (days : ℚ) (cd : ClickSummary) (cv : ConversionSummary)
    (gen : String) (hnd : (cd.by_campaign.map Prod.fst).Nodup)
    (hk : ((cd.by_campaign.map Prod.fst).filter (fun cid => cid != "none")).isEmpty
      = false) (cid : String) :
    ((loadClicks days (.ok cd) (.ok cv) gen).affiliateExport.byCampaign.map
        (fun r => r.campaign_id)).count cid
      = if cid ∈ cd.by_campaign.map Prod.fst then 1 else 0 := by
  rw [loadClicks_ok_ok days cd cv gen hk]
  show (((sortStrings (cd.by_campaign.map Prod.fst)).map
      (buildRow cd.by_campaign cv)).map (fun r => r.campaign_id)).count cid = _
  rw [rows_map_campaign_id]
  rw [(perm_sortStrings (cd.by_campaign.map Prod.fst)).count_eq]
  exact List.count_eq_of_nodup hnd

theorem c2_witness :
    (cdC2w.by_campaign.map Prod.fst).Nodup
    ∧ ((cdC2w.by_campaign.map Prod.fst).filter (fun cid => cid != "none")).isEmpty
        = false
    ∧ ((loadClicks 30 (.ok cdC2w) (.ok cvEmpty) "t").affiliateExport.byCampaign.map
        (fun r => r.campaign_id)).count "CFP-ROSE-2025"
      = if "CFP-ROSE-2025" ∈ cdC2w.by_campaign.map Prod.fst then 1 else 0 :=
  ⟨by decide, by decide, c2_rows_count 30 cdC2w cvEmpty "t" (by decide) (by decide) _⟩

/-- C4 (counterexample): the stored revenue-per-click is the `toFixed(2)`
rounding, not the exact quotient — clicks 3 and revenue 10 store 3.33,
which differs from 10/3. -/
theorem c4_counterexample :
    computeRpc (some 10) 3 = some (333/100)
    ∧ (333/100 : ℚ) ≠ (10 : ℚ)/3 := by
  constructor
  · rw [computeRpc_some 10 3 (by decide)]
    have hfl : ⌊((10 : ℚ) / ((3 : Nat) : ℚ) * 100 + 1/2)⌋ = (333 : ℤ) := by
      rw [show ((10 : ℚ) / ((3 : Nat) : ℚ) * 100 + 1/2) = ((2003 : ℕ) : ℚ)/((6 : ℕ) : ℚ) by
        push_cast; norm_num]
      rw [Rat.floor_natCast_div_natCast]
      norm_num
    rw [jsToFixed2, if_pos (by positivity), hfl]
    norm_num
  · norm_num

/-- C4 (amended): in every ReportRow built by a successful load, the
revenue-per-click field is present iff clicks > 0 and revenue is
non-null, it always equals `computeRpc` of the row's own revenue and
clicks, and when present it is the quotient revenue/clicks rounded to
two decimal places (never a division by zero). -/
theorem c4_rpc_iff (days : ℚ) (cd : ClickSummary) (cv : ConversionSummary)
    (gen : String)
    (hk : ((cd.by_campaign.map Prod.fst).filter (fun cid => cid != "none")).isEmpty
      = false)
    (r : ReportRow)
    (hr : r ∈ (loadClicks days (.ok cd) (.ok cv) gen).affiliateExport.byCampaign) :
    r.revenue_per_click = computeRpc r.revenue r.clicks
    ∧ ((r.revenue_per_click).isSome = true ↔ 0 < r.clicks ∧ (r.revenue).isSome = true)
    ∧ (∀ v : ℚ, r.revenue = some v → 0 < r.clicks →
        r.revenue_per_click = some (jsToFixed2 (v / (r.clicks : ℚ)))) := by
  rw [loadClicks_ok_ok days cd cv gen hk] at hr
  rcases List.mem_map.mp hr with ⟨cid, _, rfl⟩
  refine ⟨buildRow_rpc_eq _ _ _, ?_, ?_⟩
  · rw [buildRow_rpc_eq]
    exact computeRpc_isSome _ _
  · intro v hv hpos
    rw [buildRow_rpc_eq, hv]
    exact computeRpc_some v _ (Nat.pos_iff_ne_zero.mp hpos)

theorem c4_witness :
    rowC4 ∈ (loadClicks 30 (.ok cdC4) (.ok cvC4) "t").affiliateExport.byCampaign
    ∧ rowC4.revenue_per_click = computeRpc rowC4.revenue rowC4.clicks
    ∧ rowC4.clicks = 40 ∧ rowC4.revenue = some 100
    ∧ rowC4.revenue_per_click = some (5/2) := by
  have hrows : (loadClicks 30 (.ok cdC4) (.ok cvC4) "t").affiliateExport.byCampaign
      = [buildRow cdC4.by_campaign cvC4 "CFP-ROSE-2025"] := by
    rw [loadClicks_ok_ok 30 cdC4 cvC4 "t" (by decide)]
    rfl
  have hb : buildRow cdC4.by_campaign cvC4 "CFP-ROSE-2025"
      = ⟨"CFP-ROSE-2025", some "Rose Bowl Semifinal", 40, 4, some 100, "USD",
         computeRpc (some 100) 40⟩ := rfl
  have hrow : buildRow cdC4.by_campaign cvC4 "CFP-ROSE-2025" = rowC4 := by
    rw [hb, computeRpc_40_100]
    rfl
  have hmem : rowC4 ∈ (loadClicks 30 (.ok cdC4) (.ok cvC4) "t").affiliateExport.byCampaign := by
    rw [hrows, hrow]
    exact List.mem_singleton_self _
  exact ⟨hmem, (c4_rpc_iff 30 cdC4 cvC4 "t" (by decide) rowC4 hmem).1, rfl, rfl, rfl⟩

/-- C7: on a successful load the row campaign ids are the `by_campaign`
keys in lexicographically sorted order, a missing conversion entry
defaults to conversions 0 with revenue absent, and a missing campaign
metadata entry yields an absent label rather than an error. -/
theorem c7_rows_sorted_defaults (days : ℚ) (cd : ClickSummary)
    (cv : ConversionSummary) (gen : String)
    (hk : ((cd.by_campaign.map Prod.fst).filter (fun cid => cid != "none")).isEmpty
      = false) :
    List.Sorted (· ≤ ·)
      (((loadClicks days (.ok cd) (.ok cv) gen).affiliateExport.byCampaign).map
        (fun r => r.campaign_id))
    ∧ List.Perm
        (((loadClicks days (.ok cd) (.ok cv) gen).affiliateExport.byCampaign).map
          (fun r => r.campaign_id))
        (cd.by_campaign.map Prod.fst)
    ∧ ∀ r ∈ (loadClicks days (.ok cd) (.ok cv) gen).affiliateExport.byCampaign,
        (convLookup cv r.campaign_id = none → r.conversions = 0 ∧ r.revenue = none)
        ∧ (CAMPAIGN_META.lookup r.campaign_id = none → r.game_label = none) := by
  rw [loadClicks_ok_ok days cd cv gen hk]
  refine ⟨?_, ?_, ?_⟩
  · show List.Sorted _ (((sortStrings (cd.by_campaign.map Prod.fst)).map
      (buildRow cd.by_campaign cv)).map (fun r => r.campaign_id))
    rw [rows_map_campaign_id]
    exact List.Pairwise.imp (fun h => (strLeB_iff_le _ _).mp h) (sorted_sortStrings _)
  · show List.Perm (((sortStrings (cd.by_campaign.map Prod.fst)).map
      (buildRow cd.by_campaign cv)).map (fun r => r.campaign_id)) _
    rw [rows_map_campaign_id]
    exact perm_sortStrings _
  · intro r hr
    rcases List.mem_map.mp hr with ⟨cid, _, rfl⟩
    rw [buildRow_campaign_id]
    constructor
    · intro h
      constructor
      · simp [buildRow, h]
      · simp [buildRow, h]
    · intro h
      simp [buildRow, h]

theorem c7_witness :
    ((cdC7.by_campaign.map Prod.fst).filter (fun cid => cid != "none")).isEmpty = false
    ∧ ((loadClicks 30 (.ok cdC7) (.ok cvEmpty) "t").affiliateExport.byCampaign.map
        (fun r => r.campaign_id)) = ["AAA", "CFP-SUGAR-2025"]
    ∧ List.Sorted (· ≤ ·)
        ((loadClicks 30 (.ok cdC7) (.ok cvEmpty) "t").affiliateExport.byCampaign.map
          (fun r => r.campaign_id))
    ∧ rowC7 ∈ (loadClicks 30 (.ok cdC7) (.ok cvEmpty) "t").affiliateExport.byCampaign
    ∧ convLookup cvEmpty "AAA" = none ∧ rowC7.conversions = 0 ∧ rowC7.revenue = none
    ∧ CAMPAIGN_META.lookup "AAA" = none ∧ rowC7.game_label = none := by
  refine ⟨by decide, by decide,
    (c7_rows_sorted_defaults 30 cdC7 cvEmpty "t" (by decide)).1,
    by decide, by decide, rfl, rfl, by decide, rfl⟩

/-- C8 (amended): a non-empty snapshot serializes to the header line
followed by one `csvLine` per row in the fixed thirteen-column order; the
revenue-per-click column holds the row's stored `revenue_per_click` field
(empty when that field is absent — the serializer does not recompute it). -/
theorem c8_csv_layout (ex : ExportState) (h : ex.byCampaign ≠ []) :
    buildCsvFromExport ex =
      some (String.intercalate "\n"
        (String.intercalate "," csvHeaderCols :: ex.byCampaign.map (csvLine ex.meta))) := by
  simp [buildCsvFromExport, h]

set_option maxRecDepth 20000 in
theorem c8_witness :
    buildCsvFromExport exC8rpc = some (csvHeaderLit ++ "\n" ++ dataLineC8rpc) := by
  rw [c8_csv_layout exC8rpc (by decide)]
  rfl

set_option maxRecDepth 20000 in
/-- C8 (counterexample): applied to the snapshot holding the example row
exactly as written (no stored revenue-per-click), the serializer emits an
empty revenue-per-click field — the data line does not contain
`,USD,5`. -/
theorem c8_counterexample :
    buildCsvFromExport exC8lit = some (csvHeaderLit ++ "\n" ++ dataLineC8lit)
    ∧ ¬ (",USD,5".data <:+: dataLineC8lit.data) := by
  constructor
  · rfl
  · decide
end StegCFP
